import Mathlib

/-!
Verification of the review scraping and analysis pipeline.

This file is a shallow embedding in Lean 4 of the two core modules of the
repository, `data_fetcher.py` (the Retriever and Cache Store) and
`analyzer.py` (the Sentiment Scorer), together with theorems about their
behavior. Python string primitives (substring `in`, `split`, `strip`,
`title`, `lower`) are modelled on `List Char` over the ASCII fragment, which
covers all constant strings appearing in the code. Python floats that hold
star ratings are modelled as rationals; effectful steps (file system access,
browser automation, the hosted-model call) are modelled by explicit
environments and event traces.
-/

namespace ReviewPipeline

/-! ### Python string primitives -/

/-- Python list/string prefix test on characters. -/
def listPrefixB : List Char → List Char → Bool
  | [], _ => true
  | _ :: _, [] => false
  | a :: as, b :: bs => a = b && listPrefixB as bs

/-- Python substring containment (`needle in hay`) on character lists:
true iff `n` occurs contiguously in the second list. -/
def listInfixB (n : List Char) : List Char → Bool
  | [] => n.isEmpty
  | c :: cs => listPrefixB n (c :: cs) || listInfixB n cs

/-- Python `needle in hay` on strings. -/
def pyIn (needle hay : String) : Bool :=
  listInfixB needle.data hay.data

/-- Python whitespace characters stripped by `str.strip()` (ASCII fragment). -/
def isPyWS (c : Char) : Bool :=
  c = ' ' || c = '\t' || c = '\n' || c = '\r' || c = '\x0b' || c = '\x0c'

/-- Python `str.strip()`: drop leading and trailing whitespace. -/
def pyStrip (s : String) : String :=
  String.mk (((s.data.dropWhile isPyWS).reverse.dropWhile isPyWS).reverse)

/-- Helper for `line.split(":", 1)`: find the first colon, returning the text
before and after it, or `none` when the line has no colon. -/
def splitColonAux : List Char → List Char → Option (List Char × List Char)
  | [], _ => none
  | c :: cs, acc => if c = ':' then some (acc.reverse, cs) else splitColonAux cs (c :: acc)

/-- Python `line.split(":", 1)` viewed as an optional split at the first colon. -/
def splitColon (s : String) : Option (String × String) :=
  match splitColonAux s.data [] with
  | none => none
  | some (a, b) => some (String.mk a, String.mk b)

/-- Helper for `content.split("\n")`. -/
def splitLinesAux : List Char → List Char → List String
  | [], acc => [String.mk acc.reverse]
  | c :: cs, acc =>
    if c = '\n' then String.mk acc.reverse :: splitLinesAux cs []
    else splitLinesAux cs (c :: acc)

/-- Python `content.split("\n")`. -/
def pySplitNewline (s : String) : List String :=
  splitLinesAux s.data []

/-- ASCII uppercase letter test (the `A-Z` part of the regex class). -/
def isUpperAscii (c : Char) : Bool :=
  65 ≤ c.toNat && c.toNat ≤ 90

/-- ASCII lowercase letter test (the `a-z` part of the regex class). -/
def isLowerAscii (c : Char) : Bool :=
  97 ≤ c.toNat && c.toNat ≤ 122

/-- ASCII digit test (the `0-9` part of the regex class). -/
def isDigitAscii (c : Char) : Bool :=
  48 ≤ c.toNat && c.toNat ≤ 57

/-- The regex class `[a-zA-Z0-9]` of `get_clean_filename`. -/
def isAlnumAscii (c : Char) : Bool :=
  isUpperAscii c || isLowerAscii c || isDigitAscii c

/-- ASCII letter test (Python cased character, ASCII fragment). -/
def isAlphaAscii (c : Char) : Bool :=
  isUpperAscii c || isLowerAscii c

/-- Python `str.lower()` on one character (ASCII fragment). -/
def lowerChar (c : Char) : Char :=
  if isUpperAscii c then Char.ofNat (c.toNat + 32) else c

/-- Python uppercasing of one character, used by `str.title()` (ASCII fragment). -/
def upperChar (c : Char) : Char :=
  if isLowerAscii c then Char.ofNat (c.toNat - 32) else c

/-- Python `str.title()` scanner: a letter following a non-cased character is
uppercased, a letter following a cased character is lowercased; other
characters pass through. The boolean records whether the previous character
was cased. -/
def pyTitleAux : List Char → Bool → List Char
  | [], _ => []
  | c :: cs, prevCased =>
    if isAlphaAscii c then
      (if prevCased then lowerChar c else upperChar c) :: pyTitleAux cs true
    else
      c :: pyTitleAux cs false

/-- Python `str.title()` (ASCII fragment). -/
def pyTitle (s : String) : String :=
  String.mk (pyTitleAux s.data false)

/-- Python `s.startswith(p)`. -/
def pyStartswith (s p : String) : Bool :=
  listPrefixB p.data s.data

/-! ### Data model -/

/-- One scraped review record, as produced by the Retriever
(`data_fetcher.py`): author, star rating, free text, date. Ratings are
Python floats holding star values; they are modelled as rationals. -/
structure Review where
  author : String
  rating : ℚ
  text : String
  date : String
deriving DecidableEq

/-- A Review row extended by the Sentiment Scorer (`analyzer.py`) with the
three model-derived fields. -/
structure AnalyzedRow where
  author : String
  rating : ℚ
  text : String
  sentiment : String
  summary : String
  recommendation : String
deriving DecidableEq

/-! ### Sentiment Scorer (`analyzer.py`) -/

namespace Analyzer

/-- The `extract` helper of `analyze_reviews`: scan the reply lines for the
first line that contains `key` as a substring and has a colon, and return
the text after the first colon, stripped; return the sentinel when no line
matches. -/
def extract (lines : List String) (key : String) : String :=
  match lines with
  | [] => "N/A"
  | line :: rest =>
    if pyIn key line = true then
      match splitColon line with
      | some (_, after) => pyStrip after
      | none => extract rest key
    else extract rest key

/-- The three admissible sentiment labels checked at line 99 of
`analyzer.py`. -/
def sentimentLabels : List String := ["Positive", "Negative", "Neutral"]

/-- The body of the per-review loop of `analyze_reviews` (lines 69-133 of
`analyzer.py`). The hosted-model call `chain.invoke` is modelled by the
oracle `llm`, which receives the review text and rating and either returns
the reply content as a string or raises (`Except.error`). -/
def analyzeRow (llm : String → ℚ → Except Unit String) (row : Review) : AnalyzedRow :=
  if row.text.length < 5 ∨ pyIn "No Text" row.text = true then
    { author := row.author, rating := row.rating, text := row.text,
      sentiment := "Neutral", summary := "No text provided", recommendation := "N/A" }
  else
    match llm row.text row.rating with
    | .ok response =>
      let content := pyStrip response
      let lines := pySplitNewline content
      let sentiment0 := pyTitle (extract lines "Sentiment")
      let sentiment :=
        if sentiment0 = "Positive" ∨ sentiment0 = "Negative" ∨ sentiment0 = "Neutral"
        then sentiment0 else "Neutral"
      { author := row.author, rating := row.rating, text := row.text,
        sentiment := sentiment,
        summary := extract lines "Summary",
        recommendation := extract lines "Recommendation" }
    | .error _ =>
      let sentiment :=
        if 4 ≤ row.rating then "Positive"
        else if row.rating ≤ 2 then "Negative"
        else "Neutral"
      { author := row.author, rating := row.rating, text := row.text,
        sentiment := sentiment,
        summary := if 100 < row.text.length then String.mk (row.text.data.take 100) else row.text,
        recommendation := "Review the feedback for improvements." }

/-- The per-review loop of `analyze_reviews`: each input row appends exactly
one analyzed row (both the success and the error arm end with an append and
move to the next row). -/
def analyzeReviews (llm : String → ℚ → Except Unit String) : List Review → List AnalyzedRow
  | [] => []
  | row :: rest => analyzeRow llm row :: analyzeReviews llm rest

/-- Effects of `analyze_reviews` that the error-handling claims observe:
reading the input CSV, constructing the endpoint, one hosted-model request,
writing the output CSV. -/
inductive AEvent
  | readInput
  | connect
  | modelRequest
  | writeOutput
deriving DecidableEq

/-- Result of a run of `analyze_reviews`. -/
inductive AnalyzeResult
  | configError
  | missingInput
  | connectionError
  | done (rows : List AnalyzedRow)
deriving DecidableEq

/-- Environment of a run of `analyze_reviews`: the configured API token,
whether the input file exists and its rows, whether endpoint construction
succeeds, and the hosted-model oracle. -/
structure AnalyzerEnv where
  token : String
  inputExists : Bool
  inputRows : List Review
  connectOk : Bool
  llm : String → ℚ → Except Unit String

/-- The `MAX_REVIEWS` constant of `analyzer.py`. -/
def MAX_REVIEWS : Nat := 10

/-- Model requests issued for one row: none when the row is skipped as
blank, one otherwise (also when the request then raises). -/
def rowEvents (row : Review) : List AEvent :=
  if row.text.length < 5 ∨ pyIn "No Text" row.text = true then [] else [.modelRequest]

/-- Top-level `analyze_reviews` (lines 20-137 of `analyzer.py`): token
check, input-file check, CSV load truncated to `MAX_REVIEWS`, endpoint
construction, the per-review loop, and the final save, with the I/O and
request events traced. -/
def analyze_reviews (env : AnalyzerEnv) : List AEvent × AnalyzeResult :=
  if env.token = "" ∨ pyStartswith env.token "hf_" = false then
    ([], .configError)
  else if env.inputExists = false then
    ([], .missingInput)
  else
    let rows := env.inputRows.take MAX_REVIEWS
    if env.connectOk = false then
      ([.readInput, .connect], .connectionError)
    else
      ([.readInput, .connect] ++ rows.flatMap rowEvents ++ [.writeOutput],
       .done (analyzeReviews env.llm rows))

/-- Modelled from the words of the claim (not from the code): field extraction by
case- and position-insensitive substring matching of the label within a
line, taking the text after the first colon, defaulting to the sentinel.
It exists only to be compared with `extract`, which is translated from the
source. -/
def extractSpec (lines : List String) (key : String) : String :=
  match lines with
  | [] => "N/A"
  | line :: rest =>
    if pyIn (String.mk (key.data.map lowerChar)) (String.mk (line.data.map lowerChar)) = true then
      match splitColon line with
      | some (_, after) => pyStrip after
      | none => extractSpec rest key
    else extractSpec rest key

end Analyzer

/-! ### Retriever and Cache Store (`data_fetcher.py`) -/

namespace Fetcher

/-- One character of `re.sub` with pattern `[^a-zA-Z0-9]` and replacement
`_`: keep alphanumerics, replace everything else by an underscore. -/
def subChar (c : Char) : Char :=
  if isAlnumAscii c then c else '_'

/-- The normalized cache-name characters of `get_clean_filename`: first the
regex substitution, then `str.lower()` (after the substitution every
character is ASCII, so the ASCII lowering is exact). -/
def clean_name (l : List Char) : List Char :=
  (l.map subChar).map lowerChar

/-- `get_clean_filename` (lines 21-23 of `data_fetcher.py`). -/
def get_clean_filename (query : String) : String :=
  "data/" ++ String.mk (clean_name query.data) ++ "_reviews.csv"

/-- Effects of `run_scraper` that the cache and resource claims observe. -/
inductive FEvent
  | readCache
  | syncCurrent
  | openBrowser
  | navigate
  | clickResult
  | runScrape
  | saveFile
  | closeBrowser
deriving DecidableEq

/-- Environment of a run of `run_scraper`: the file system mapping file
names to absent (`none`), corrupted (`some (.error ())`), or a readable
table of rows (`some (.ok rows)`); whether navigation succeeds; whether the
landing URL is a direct place page; whether clicking the top search result
succeeds; and the outcome of `scrape_reviews_force` (raise, return without
saving, or save rows). -/
structure FetchEnv where
  fs : String → Option (Except Unit (List Review))
  navigateOk : Bool
  isPlacePage : Bool
  clickOk : Bool
  scrapeOutcome : Except Unit (Option (List Review))

/-- Events of one call to `scrape_reviews_force`, given its outcome:
`save_data` writes the query file and syncs the shared current file. -/
def scrapeEvents : Except Unit (Option (List Review)) → List FEvent
  | .ok (some _) => [.runScrape, .saveFile, .syncCurrent]
  | .ok none => [.runScrape]
  | .error _ => [.runScrape]

/-- Rows written to the shared current file by one call to
`scrape_reviews_force`, given its outcome. -/
def scrapeCurrent : Except Unit (Option (List Review)) → Option (List Review)
  | .ok (some rows) => some rows
  | .ok none => none
  | .error _ => none

/-- `run_scraper` (lines 49-96 of `data_fetcher.py`): cache check first
(a readable cache file is synced to the shared current file and the
function returns; a corrupted one falls through), then the browser session
with the navigate/click/scrape body inside `try`, the outer `except`
swallowing any raise, and the `finally` closing the browser. Returns the
event trace and the rows last written to the shared current file. -/
def run_scraper (env : FetchEnv) (query : String) : List FEvent × Option (List Review) :=
  let filename := get_clean_filename query
  match env.fs filename with
  | some (.ok rows) => ([.readCache, .syncCurrent], some rows)
  | some (.error _) =>
    let body : List FEvent × Option (List Review) :=
      if env.navigateOk = false then ([.navigate], none)
      else if env.isPlacePage then
        (.navigate :: scrapeEvents env.scrapeOutcome, scrapeCurrent env.scrapeOutcome)
      else if env.clickOk then
        (.navigate :: .clickResult :: scrapeEvents env.scrapeOutcome, scrapeCurrent env.scrapeOutcome)
      else ([.navigate, .clickResult], none)
    (.readCache :: .openBrowser :: body.1 ++ [.closeBrowser], body.2)
  | none =>
    let body : List FEvent × Option (List Review) :=
      if env.navigateOk = false then ([.navigate], none)
      else if env.isPlacePage then
        (.navigate :: scrapeEvents env.scrapeOutcome, scrapeCurrent env.scrapeOutcome)
      else if env.clickOk then
        (.navigate :: .clickResult :: scrapeEvents env.scrapeOutcome, scrapeCurrent env.scrapeOutcome)
      else ([.navigate, .clickResult], none)
    (.openBrowser :: body.1 ++ [.closeBrowser], body.2)

/-- The rating interpretation chain of the aggregate-rating fallback
(lines 202-207 of `data_fetcher.py`). -/
def interpret_rating (rating_val : ℚ) : String :=
  if 4.5 ≤ rating_val then "Excellent / Highly Recommended"
  else if 4.0 ≤ rating_val then "Good / Positive"
  else if 3.0 ≤ rating_val then "Average / Okay"
  else if 2.0 ≤ rating_val then "Poor / Below Average"
  else "Bad / Not Recommended"

/-- The aggregate-rating fallback of `scrape_reviews_force` (lines 200-230):
when no review cards were ever found, `rating_val` holds the extracted
aggregate rating (0 when both extraction attempts failed, since the value
starts at 0.0 and stays there). A positive value yields exactly one synthesized
row; otherwise the raise is caught and nothing is saved. `ratingText` is
the decimal rendering of the float interpolated into the f-string. -/
def aggregate_fallback (rating_val : ℚ) (ratingText : String) : List Review :=
  if 0 < rating_val then
    [{ author := "Google Summary", rating := rating_val,
       text := "Overall rating is " ++ ratingText ++ ". Verdict: " ++ interpret_rating rating_val,
       date := "Today" }]
  else []

/-- Pointwise relation on query characters capturing "differ only in letter
case or in non-alphanumeric characters": both alphanumeric with the same
lowering, or both non-alphanumeric. -/
def charEquivB (c d : Char) : Bool :=
  (isAlnumAscii c && isAlnumAscii d && decide (lowerChar c = lowerChar d))
    || (!isAlnumAscii c && !isAlnumAscii d)

/-- Two queries differ only in letter case or in non-alphanumeric
characters: same length and pointwise `charEquivB`. -/
def queryEquiv : List Char → List Char → Bool
  | [], [] => true
  | c :: cs, d :: ds => charEquivB c d && queryEquiv cs ds
  | _, _ => false

end Fetcher

/-! ### Concrete instances used by witnesses -/

/-- A hosted-model oracle that raises on every request. -/
def llmErr : String → ℚ → Except Unit String := fun _ _ => .error ()

/-- A hosted-model oracle returning the three-line reply of the parsing
scenario. -/
def llmScenario : String → ℚ → Except Unit String :=
  fun _ _ => .ok "Sentiment: positive\nSummary: Customer loved it\nRecommendation: Keep it up"

/-- A hosted-model oracle whose reply carries a sentiment outside the
admissible set. -/
def llmOutOfSet : String → ℚ → Except Unit String :=
  fun _ _ => .ok "Sentiment: great stuff"

/-- The scenario row with text and a five-star rating. -/
def rowGreat : Review :=
  { author := "A", rating := 5, text := "Great service!", date := "Recent" }

/-- The scenario row with empty text and rating 3. -/
def rowEmptyText : Review :=
  { author := "Unknown", rating := 3, text := "", date := "Recent" }

/-- A row with non-trivial text and rating 1. -/
def rowRatingOne : Review :=
  { author := "B", rating := 1, text := "Terrible place", date := "Recent" }

/-- An analyzer environment whose token does not begin with the required
prefix. -/
def envBadToken : Analyzer.AnalyzerEnv :=
  { token := "abc", inputExists := true, inputRows := [rowRatingOne],
    connectOk := true, llm := llmErr }

/-- A fetcher environment holding a readable cache entry for one query. -/
def envCacheHit : Fetcher.FetchEnv :=
  { fs := fun name =>
      if name = Fetcher.get_clean_filename "TCS Chennai" then some (.ok [rowRatingOne]) else none,
    navigateOk := true, isPlacePage := true, clickOk := true, scrapeOutcome := .ok none }

/-- A fetcher environment with an empty cache, forcing a live fetch. -/
def envCacheMiss : Fetcher.FetchEnv :=
  { fs := fun _ => none,
    navigateOk := true, isPlacePage := true, clickOk := true,
    scrapeOutcome := .ok (some [rowRatingOne]) }

/-! ### Helper lemmas -/

/-- All three arms of the per-review loop copy the author field unchanged. -/
theorem analyzeRow_author (llm : String → ℚ → Except Unit String) (row : Review) :
    (Analyzer.analyzeRow llm row).author = row.author := by
  rw [Analyzer.analyzeRow]
  split
  · rfl
  · split <;> rfl

/-- All three arms of the per-review loop copy the rating field unchanged. -/
theorem analyzeRow_rating (llm : String → ℚ → Except Unit String) (row : Review) :
    (Analyzer.analyzeRow llm row).rating = row.rating := by
  rw [Analyzer.analyzeRow]
  split
  · rfl
  · split <;> rfl

/-- All three arms of the per-review loop copy the text field unchanged. -/
theorem analyzeRow_text (llm : String → ℚ → Except Unit String) (row : Review) :
    (Analyzer.analyzeRow llm row).text = row.text := by
  rw [Analyzer.analyzeRow]
  split
  · rfl
  · split <;> rfl

/-- A nonempty trace ending in a fixed event has that event as its last
element. -/
theorem getLast?_cons_concat (x : Fetcher.FEvent) (l : List Fetcher.FEvent)
    (a : Fetcher.FEvent) : (x :: (l ++ [a])).getLast? = some a := by
  rw [show x :: (l ++ [a]) = (x :: l) ++ [a] from rfl]
  exact List.getLast?_concat (x :: l)

/-- Each normalized character is a lowercase ASCII letter, an ASCII digit,
or an underscore. -/
theorem cleanChar_allowed (c : Char) :
    isLowerAscii (lowerChar (Fetcher.subChar c)) = true ∨
    isDigitAscii (lowerChar (Fetcher.subChar c)) = true ∨
    lowerChar (Fetcher.subChar c) = '_' := by
  by_cases halnum : isAlnumAscii c = true
  · rw [Fetcher.subChar, if_pos halnum]
    rcases (by simpa [isAlnumAscii, Bool.or_eq_true, or_assoc] using halnum :
        isUpperAscii c = true ∨ isLowerAscii c = true ∨ isDigitAscii c = true) with
      hup | hlow | hdig
    · rw [lowerChar, if_pos hup]
      obtain ⟨h1, h2⟩ : 65 ≤ c.toNat ∧ c.toNat ≤ 90 := by
        simpa [isUpperAscii, Bool.and_eq_true, decide_eq_true_eq] using hup
      generalize c.toNat = n at h1 h2 ⊢
      interval_cases n <;> decide
    · have hup : isUpperAscii c = false := by
        obtain ⟨h1, h2⟩ : 97 ≤ c.toNat ∧ c.toNat ≤ 122 := by
          simpa [isLowerAscii, Bool.and_eq_true, decide_eq_true_eq] using hlow
        simp only [isUpperAscii, Bool.and_eq_true, decide_eq_true_eq,
          Bool.and_eq_false_iff, decide_eq_false_iff_not]
        omega
      rw [lowerChar, if_neg (by simp [hup])]
      exact Or.inl hlow
    · have hup : isUpperAscii c = false := by
        obtain ⟨h1, h2⟩ : 48 ≤ c.toNat ∧ c.toNat ≤ 57 := by
          simpa [isDigitAscii, Bool.and_eq_true, decide_eq_true_eq] using hdig
        simp only [isUpperAscii, Bool.and_eq_true, decide_eq_true_eq,
          Bool.and_eq_false_iff, decide_eq_false_iff_not]
        omega
      rw [lowerChar, if_neg (by simp [hup])]
      exact Or.inr (Or.inl hdig)
  · rw [Fetcher.subChar, if_neg halnum]
    exact Or.inr (Or.inr (by decide))

/-- Pointwise-equivalent characters normalize to the same character. -/
theorem charEquiv_clean (c d : Char) (h : Fetcher.charEquivB c d = true) :
    lowerChar (Fetcher.subChar c) = lowerChar (Fetcher.subChar d) := by
  rw [Fetcher.charEquivB] at h
  rcases Bool.or_eq_true_iff.mp h with h1 | h2
  · obtain ⟨⟨hc, hd⟩, hl⟩ : (isAlnumAscii c = true ∧ isAlnumAscii d = true) ∧
        lowerChar c = lowerChar d := by
      simpa [Bool.and_eq_true, decide_eq_true_eq, and_assoc] using h1
    rw [Fetcher.subChar, if_pos hc, Fetcher.subChar, if_pos hd]
    exact hl
  · obtain ⟨hc, hd⟩ : isAlnumAscii c = false ∧ isAlnumAscii d = false := by
      simpa [Bool.and_eq_true, Bool.not_eq_true'] using h2
    rw [Fetcher.subChar, if_neg (by simp [hc]), Fetcher.subChar, if_neg (by simp [hd])]

/-- Pointwise-equivalent queries normalize to the same character list. -/
theorem queryEquiv_clean_name (l1 : List Char) :
    ∀ l2 : List Char, Fetcher.queryEquiv l1 l2 = true →
      Fetcher.clean_name l1 = Fetcher.clean_name l2 := by
  induction l1 with
  | nil =>
    intro l2 h
    cases l2 with
    | nil => rfl
    | cons d ds => exact absurd h (by simp [Fetcher.queryEquiv])
  | cons c cs ih =>
    intro l2 h
    cases l2 with
    | nil => exact absurd h (by simp [Fetcher.queryEquiv])
    | cons d ds =>
      rw [show Fetcher.queryEquiv (c :: cs) (d :: ds)
            = (Fetcher.charEquivB c d && Fetcher.queryEquiv cs ds) from rfl] at h
      obtain ⟨h1, h2⟩ := Bool.and_eq_true_iff.mp h
      show lowerChar (Fetcher.subChar c) :: Fetcher.clean_name cs
        = lowerChar (Fetcher.subChar d) :: Fetcher.clean_name ds
      rw [charEquiv_clean c d h1, ih ds h2]

/-! ### Claim theorems -/

/-- C1: if the model invocation raises on a row that is not skipped as
blank, the row is filled deterministically from the numeric rating alone
(rating at least 4 gives Positive, at most 2 gives Negative, strictly
between 2 and 4 gives Neutral), the summary is the raw text truncated to
100 characters when longer, the recommendation is the fixed fallback
string, the author, rating and text fields are preserved, and processing
continues with the next row. -/
theorem fallback_fills_row_on_model_error
    (llm : String → ℚ → Except Unit String) (row : Review) (rest : List Review)
    (hskip : ¬ (row.text.length < 5 ∨ pyIn "No Text" row.text = true))
    (herr : llm row.text row.rating = .error ()) :
    Analyzer.analyzeReviews llm (row :: rest)
      = Analyzer.analyzeRow llm row :: Analyzer.analyzeReviews llm rest ∧
    (4 ≤ row.rating → (Analyzer.analyzeRow llm row).sentiment = "Positive") ∧
    (row.rating ≤ 2 → (Analyzer.analyzeRow llm row).sentiment = "Negative") ∧
    (2 < row.rating → row.rating < 4 → (Analyzer.analyzeRow llm row).sentiment = "Neutral") ∧
    (Analyzer.analyzeRow llm row).summary
      = (if 100 < row.text.length then String.mk (row.text.data.take 100) else row.text) ∧
    (Analyzer.analyzeRow llm row).recommendation = "Review the feedback for improvements." ∧
    (Analyzer.analyzeRow llm row).author = row.author ∧
    (Analyzer.analyzeRow llm row).rating = row.rating ∧
    (Analyzer.analyzeRow llm row).text = row.text := by
  have hrow : Analyzer.analyzeRow llm row =
      { author := row.author, rating := row.rating, text := row.text,
        sentiment :=
          if 4 ≤ row.rating then "Positive"
          else if row.rating ≤ 2 then "Negative" else "Neutral",
        summary := if 100 < row.text.length then String.mk (row.text.data.take 100) else row.text,
        recommendation := "Review the feedback for improvements." } := by
    rw [Analyzer.analyzeRow, if_neg hskip, herr]
  refine ⟨rfl, ?_, ?_, ?_, ?_, ?_, ?_, ?_, ?_⟩ <;> rw [hrow]
  · intro h4
    show (if 4 ≤ row.rating then "Positive"
      else if row.rating ≤ 2 then "Negative" else "Neutral") = "Positive"
    rw [if_pos h4]
  · intro h2
    show (if 4 ≤ row.rating then "Positive"
      else if row.rating ≤ 2 then "Negative" else "Neutral") = "Negative"
    rw [if_neg (by linarith), if_pos h2]
  · intro h2 h4
    show (if 4 ≤ row.rating then "Positive"
      else if row.rating ≤ 2 then "Negative" else "Neutral") = "Neutral"
    rw [if_neg (by linarith), if_neg (by linarith)]

/-- Witness for C1: a model error on a row with rating 1 and non-trivial
text yields sentiment Negative and the fixed fallback recommendation, and
the loop appends exactly that row and continues. -/
theorem fallback_on_model_error_witness :
    (Analyzer.analyzeRow llmErr rowRatingOne).sentiment = "Negative" ∧
    (Analyzer.analyzeRow llmErr rowRatingOne).recommendation
      = "Review the feedback for improvements." ∧
    Analyzer.analyzeReviews llmErr [rowRatingOne] = [Analyzer.analyzeRow llmErr rowRatingOne] := by
  have h := fallback_fills_row_on_model_error llmErr rowRatingOne [] (by decide) rfl
  exact ⟨h.2.2.1 (by norm_num [rowRatingOne]), h.2.2.2.2.2.1, h.1⟩

/-- C2: whatever path produced the row (short-text skip, successful model
reply, or per-row error fallback), its sentiment field is one of the three
strings Positive, Neutral, Negative; moreover a model-reply sentiment whose
title-cased form falls outside that set is coerced to Neutral. -/
theorem sentiment_always_in_three_value_set
    (llm : String → ℚ → Except Unit String) (row : Review) :
    ((Analyzer.analyzeRow llm row).sentiment = "Positive" ∨
     (Analyzer.analyzeRow llm row).sentiment = "Neutral" ∨
     (Analyzer.analyzeRow llm row).sentiment = "Negative") ∧
    (∀ reply : String,
      llm row.text row.rating = .ok reply →
      ¬ (pyTitle (Analyzer.extract (pySplitNewline (pyStrip reply)) "Sentiment") = "Positive" ∨
         pyTitle (Analyzer.extract (pySplitNewline (pyStrip reply)) "Sentiment") = "Negative" ∨
         pyTitle (Analyzer.extract (pySplitNewline (pyStrip reply)) "Sentiment") = "Neutral") →
      (Analyzer.analyzeRow llm row).sentiment = "Neutral") := by
  constructor
  · rw [Analyzer.analyzeRow]
    split
    · exact Or.inr (Or.inl rfl)
    · split
      · simp only
        split
        · next hin => tauto
        · exact Or.inr (Or.inl rfl)
      · simp only
        split
        · exact Or.inl rfl
        · split
          · exact Or.inr (Or.inr rfl)
          · exact Or.inr (Or.inl rfl)
  · intro reply hok hnot
    rw [Analyzer.analyzeRow]
    split
    · rfl
    · rw [hok]
      simp only
      rw [if_neg hnot]

/-- Witness for C2: a reply whose sentiment line title-cases to a string
outside the admissible set is coerced to Neutral. -/
theorem sentiment_coercion_witness :
    (Analyzer.analyzeRow llmOutOfSet rowGreat).sentiment = "Neutral" :=
  (sentiment_always_in_three_value_set llmOutOfSet rowGreat).2
    "Sentiment: great stuff" rfl (by decide)

/-- C3: the scoring loop emits exactly one analyzed row per input row, in
the same order, with the author, rating and text of position i of the
output equal to those of position i of the input; no row is lost and no
row aborts the loop. -/
theorem one_output_row_per_input_row
    (llm : String → ℚ → Except Unit String) (rows : List Review) :
    (Analyzer.analyzeReviews llm rows).length = rows.length ∧
    ∀ i : Nat, i < rows.length →
      (((Analyzer.analyzeReviews llm rows).get? i).map AnalyzedRow.author
          = (rows.get? i).map Review.author ∧
       ((Analyzer.analyzeReviews llm rows).get? i).map AnalyzedRow.rating
          = (rows.get? i).map Review.rating ∧
       ((Analyzer.analyzeReviews llm rows).get? i).map AnalyzedRow.text
          = (rows.get? i).map Review.text) := by
  induction rows with
  | nil => exact ⟨rfl, fun i hi => absurd hi (Nat.not_lt_zero i)⟩
  | cons row rest ih =>
    refine ⟨?_, ?_⟩
    · show (Analyzer.analyzeReviews llm rest).length + 1 = rest.length + 1
      rw [ih.1]
    · intro i hi
      cases i with
      | zero =>
        refine ⟨?_, ?_, ?_⟩ <;> show some _ = some _
        · rw [analyzeRow_author]
        · rw [analyzeRow_rating]
        · rw [analyzeRow_text]
      | succ n =>
        exact ih.2 n (Nat.succ_lt_succ_iff.mp hi)

/-- Witness for C3: a concrete one-element input yields a one-element
output whose head keeps the input author. -/
theorem one_output_row_witness :
    (Analyzer.analyzeReviews llmErr [rowRatingOne]).length = 1 ∧
    ((Analyzer.analyzeReviews llmErr [rowRatingOne]).get? 0).map AnalyzedRow.author
      = some "B" := by
  have h := one_output_row_per_input_row llmErr [rowRatingOne]
  exact ⟨h.1, by rw [(h.2 0 (by norm_num)).1]; rfl⟩

/-- C7: a row whose text is shorter than 5 characters or contains the
no-text marker is filled without invoking the model: sentiment Neutral,
summary "No text provided", recommendation "N/A", author, rating and text
preserved; and the row issues no model request. -/
theorem short_text_skips_model
    (llm : String → ℚ → Except Unit String) (row : Review)
    (h : row.text.length < 5 ∨ pyIn "No Text" row.text = true) :
    Analyzer.analyzeRow llm row =
      { author := row.author, rating := row.rating, text := row.text,
        sentiment := "Neutral", summary := "No text provided", recommendation := "N/A" } ∧
    Analyzer.rowEvents row = [] := by
  constructor
  · rw [Analyzer.analyzeRow, if_pos h]
  · rw [Analyzer.rowEvents, if_pos h]

/-- Witness for C7: the row with empty text and rating 3 yields exactly the
scenario output. -/
theorem short_text_witness :
    Analyzer.analyzeRow llmErr rowEmptyText =
      { author := "Unknown", rating := 3, text := "", sentiment := "Neutral",
        summary := "No text provided", recommendation := "N/A" } ∧
    Analyzer.rowEvents rowEmptyText = [] :=
  short_text_skips_model llmErr rowEmptyText (Or.inl (by decide))

/-- C9: a missing token or a token that does not begin with the required
prefix makes `analyze_reviews` report the configuration error and return
with an empty effect trace: the input file is not read, no model request is
made, and no output file is written. -/
theorem invalid_token_aborts_before_io
    (env : Analyzer.AnalyzerEnv)
    (h : env.token = "" ∨ pyStartswith env.token "hf_" = false) :
    Analyzer.analyze_reviews env = ([], Analyzer.AnalyzeResult.configError) := by
  rw [Analyzer.analyze_reviews, if_pos h]

/-- Witness for C9: a token without the required prefix aborts the run with
no effects. -/
theorem invalid_token_witness :
    Analyzer.analyze_reviews envBadToken = ([], Analyzer.AnalyzeResult.configError) :=
  invalid_token_aborts_before_io envBadToken (Or.inr (by decide))

/-- C5 counterexample: the claim describes the label matching as case- and
position-insensitive, but the code tests `key in line`, which is
case-sensitive. On the line "sentiment: positive" the source `extract`
misses the lowercase label and returns the sentinel, while the
claim-worded, case-insensitive `extractSpec` finds it. -/
theorem extract_matching_is_case_sensitive :
    Analyzer.extract ["sentiment: positive"] "Sentiment" = "N/A" ∧
    Analyzer.extractSpec ["sentiment: positive"] "Sentiment" = "positive" :=
  ⟨by decide, by decide⟩

/-- C5 amended: fields are extracted by case-sensitive but
position-insensitive substring matching of the label within a line, taking
the stripped text after the first colon and defaulting an unmatched field
to the sentinel; the scenario reply yields sentiment Positive, summary
"Customer loved it" and recommendation "Keep it up". -/
theorem extract_labeled_fields_amended :
    (Analyzer.analyzeRow llmScenario rowGreat).sentiment = "Positive" ∧
    (Analyzer.analyzeRow llmScenario rowGreat).summary = "Customer loved it" ∧
    (Analyzer.analyzeRow llmScenario rowGreat).recommendation = "Keep it up" ∧
    Analyzer.extract ["prelude Sentiment label: value"] "Sentiment" = "value" ∧
    Analyzer.extract ["Summary without colon", "Summary: second"] "Summary" = "second" ∧
    Analyzer.extract ["Nothing relevant here"] "Sentiment" = "N/A" :=
  ⟨by decide, by decide, by decide, by decide, by decide, by decide⟩

/-- C4: when the file system holds a readable cache entry for the query
under its normalized key, `run_scraper` returns after syncing the cached
rows to the shared current file: no browser session is opened and no live
extraction happens. -/
theorem cache_hit_skips_live_extraction
    (env : Fetcher.FetchEnv) (query : String) (rows : List Review)
    (h : env.fs (Fetcher.get_clean_filename query) = some (.ok rows)) :
    Fetcher.run_scraper env query
      = ([Fetcher.FEvent.readCache, Fetcher.FEvent.syncCurrent], some rows) ∧
    Fetcher.FEvent.openBrowser ∉ (Fetcher.run_scraper env query).1 := by
  have heq : Fetcher.run_scraper env query
      = ([Fetcher.FEvent.readCache, Fetcher.FEvent.syncCurrent], some rows) := by
    rw [Fetcher.run_scraper]
    simp only [h]
  refine ⟨heq, ?_⟩
  rw [heq]
  exact (by decide :
    Fetcher.FEvent.openBrowser ∉ [Fetcher.FEvent.readCache, Fetcher.FEvent.syncCurrent])

/-- Witness for C4: a concrete environment with a cache entry for the query
returns the cached rows without opening a browser. -/
theorem cache_hit_witness :
    Fetcher.run_scraper envCacheHit "TCS Chennai"
      = ([Fetcher.FEvent.readCache, Fetcher.FEvent.syncCurrent], some [rowRatingOne]) :=
  (cache_hit_skips_live_extraction envCacheHit "TCS Chennai" [rowRatingOne]
    (by simp [envCacheHit])).1

/-- C6: when no review entries were ever found, a positive extracted
aggregate rating yields exactly one synthesized row whose text carries the
rating-derived verdict; for 4.7 the text contains "Excellent" since 4.7 is
at least 4.5; when aggregate extraction fails (the value stays 0), the
result is empty. -/
theorem aggregate_fallback_single_row :
    (∃ row, Fetcher.aggregate_fallback 4.7 "4.7" = [row] ∧ pyIn "Excellent" row.text = true) ∧
    (∀ (r : ℚ) (s : String), 0 < r →
      Fetcher.aggregate_fallback r s =
        [{ author := "Google Summary", rating := r,
           text := "Overall rating is " ++ s ++ ". Verdict: " ++ Fetcher.interpret_rating r,
           date := "Today" }]) ∧
    (∀ (r : ℚ) (s : String), r ≤ 0 → Fetcher.aggregate_fallback r s = []) := by
  refine ⟨?_, ?_, ?_⟩
  · refine ⟨{ author := "Google Summary", rating := 4.7,
              text := "Overall rating is 4.7. Verdict: Excellent / Highly Recommended",
              date := "Today" }, ?_, by decide⟩
    rw [Fetcher.aggregate_fallback, if_pos (show (0 : ℚ) < 4.7 by norm_num)]
    rw [Fetcher.interpret_rating, if_pos (show (4.5 : ℚ) ≤ 4.7 by norm_num)]
    rfl
  · intro r s hr
    rw [Fetcher.aggregate_fallback, if_pos hr]
  · intro r s hr
    rw [Fetcher.aggregate_fallback, if_neg (not_lt.mpr hr)]

/-- Witness for C6: a failed aggregate extraction leaves the result empty. -/
theorem aggregate_fallback_witness :
    Fetcher.aggregate_fallback 0 "0.0" = [] :=
  aggregate_fallback_single_row.2.2 0 "0.0" (by norm_num)

/-- C8: on every run of `run_scraper` whose trace opens a browser session
(every cache-miss or corrupted-cache path, whether the body completes,
returns empty, or raises), the final trace event is the browser close. -/
theorem browser_closed_on_every_path
    (env : Fetcher.FetchEnv) (query : String)
    (h : Fetcher.FEvent.openBrowser ∈ (Fetcher.run_scraper env query).1) :
    (Fetcher.run_scraper env query).1.getLast? = some Fetcher.FEvent.closeBrowser := by
  rw [Fetcher.run_scraper]
  rcases henv : env.fs (Fetcher.get_clean_filename query) with _ | e
  · simp only
    exact getLast?_cons_concat _ _ _
  · rcases e with e | rows
    · simp only
      rw [show ∀ (l : List Fetcher.FEvent),
            Fetcher.FEvent.readCache :: Fetcher.FEvent.openBrowser :: l ++ [Fetcher.FEvent.closeBrowser]
              = Fetcher.FEvent.readCache :: (Fetcher.FEvent.openBrowser :: l ++ [Fetcher.FEvent.closeBrowser])
          from fun l => rfl]
      exact getLast?_cons_concat _ _ _
    · simp only [Fetcher.run_scraper, henv] at h
      exact absurd h (by decide)

/-- Witness for C8: a concrete cache-miss run opens the browser and its
trace ends with the browser close. -/
theorem browser_closed_witness :
    (Fetcher.run_scraper envCacheMiss "TCS Chennai").1.getLast?
      = some Fetcher.FEvent.closeBrowser :=
  browser_closed_on_every_path envCacheMiss "TCS Chennai" (by decide)

/-- C10: cache-key normalization replaces every character that is not an
ASCII letter or digit by an underscore and lowercases the rest, so the
normalized name contains only lowercase alphanumerics and underscores, and
two queries that differ only in letter case or in non-alphanumeric
characters map to the same cache file name. -/
theorem clean_filename_normalization (q1 q2 : String)
    (h : Fetcher.queryEquiv q1.data q2.data = true) :
    Fetcher.get_clean_filename q1 = Fetcher.get_clean_filename q2 ∧
    ∀ c ∈ Fetcher.clean_name q1.data,
      (isLowerAscii c = true ∨ isDigitAscii c = true ∨ c = '_') := by
  constructor
  · rw [Fetcher.get_clean_filename, Fetcher.get_clean_filename,
      queryEquiv_clean_name q1.data q2.data h]
  · intro c hc
    rw [Fetcher.clean_name, List.map_map] at hc
    obtain ⟨a, _, rfl⟩ := List.mem_map.mp hc
    exact cleanChar_allowed a

/-- Witness for C10: two queries differing only in case and punctuation
share one cache file name. -/
theorem clean_filename_witness :
    Fetcher.get_clean_filename "TCS Chennai" = Fetcher.get_clean_filename "tcs,chennai" :=
  (clean_filename_normalization "TCS Chennai" "tcs,chennai" (by decide)).1

end ReviewPipeline
